import Mathlib

/-!
Shallow embedding of the FloodAlarmSystem repository and proofs about it.

The repository has three Python components:
  - `prediction_worker/` (worker.py, prediction_utils.py): a polling worker that
    checks stale locations, predicts flood coverage from satellite imagery and
    alerts subscribed users.
  - `middleware_api/` (main.py, prediction_utils.py): a FastAPI middleware with
    header pseudo-authentication over a hosted database.
  - `flood_alarm_api/` (main.py): an earlier single-file API.

Machine floats of the Python code are idealised as rationals; network calls,
the database and the ML model are parameters of the embedded functions
(an oracle per location, explicit table states).  String formatting of numbers
is abstracted by a fixed injective rendering `ratStr`; the crucial part of
Python's `str.format` (substituting the brace placeholders in order) is
embedded faithfully as `pyFormat`.
-/

/-! ## Generic string and number helpers -/

/-- The opening-brace character, written via its code point. -/
def lbraceChar : Char := Char.ofNat 123

/-- The closing-brace character, written via its code point. -/
def rbraceChar : Char := Char.ofNat 125

/-- A single `str.format` placeholder: an opening brace followed by a closing brace. -/
def placeHolder : String := String.mk [lbraceChar, rbraceChar]

/-- Embedding of Python `str.format`: scan the template and replace each
placeholder pair by the next positional argument, in order. -/
def pyFormat : List Char → List String → List Char
  | [], _ => []
  | [c], _ => [c]
  | c1 :: c2 :: rest, args =>
    if c1 = lbraceChar ∧ c2 = rbraceChar then
      match args with
      | a :: args2 => a.toList ++ pyFormat rest args2
      | [] => c1 :: c2 :: pyFormat rest []
    else c1 :: pyFormat (c2 :: rest) args
termination_by cs _ => cs.length

/-- Does the first character list start with the second? -/
def listStartsWith : List Char → List Char → Bool
  | _, [] => true
  | [], _ :: _ => false
  | a :: as, b :: bs => a == b && listStartsWith as bs

/-- Does the first character list contain the second as a contiguous run? -/
def listHasSub : List Char → List Char → Bool
  | [], needle => listStartsWith [] needle
  | h :: t, needle => listStartsWith (h :: t) needle || listHasSub t needle

/-- Embedding of Python's `needle in hay` on strings. -/
def strContains (hay needle : String) : Bool :=
  listHasSub hay.toList needle.toList

/-- Decimal digit character for a value below ten. -/
def digitChar (n : ℕ) : Char := Char.ofNat (48 + n)

/-- Decimal digit characters of a natural number, most significant first. -/
def natChars (n : ℕ) : List Char :=
  if n < 10 then [digitChar n]
  else natChars (n / 10) ++ [digitChar (n % 10)]
termination_by n
decreasing_by simp_wf; omega

/-- Fixed injective rendering of a rational as a string (sign, numerator digits,
slash, denominator digits).  It abstracts Python's float formatting: the embedded
URL builders only need some fixed rendering of each interpolated number. -/
def ratStr (q : ℚ) : String :=
  String.mk ((if q.num < 0 then ['-'] else []) ++ natChars q.num.natAbs ++ '/' :: natChars q.den)

/-- Embedding of Python's banker rounding `round(q)` to an integer:
round to nearest, ties to the even integer. -/
def roundHalfEven (q : ℚ) : ℤ :=
  if q - ⌊q⌋ < 1/2 then ⌊q⌋
  else if (1 : ℚ)/2 < q - ⌊q⌋ then ⌊q⌋ + 1
  else if ⌊q⌋ % 2 = 0 then ⌊q⌋ else ⌊q⌋ + 1

/-- Embedding of Python's `round(q, 2)`. -/
def pyRound2 (q : ℚ) : ℚ := (roundHalfEven (q * 100) : ℚ) / 100

/-! ## prediction_worker/prediction_utils.py -/

namespace PredictionWorker

def IMG_HEIGHT : ℕ := 256

def IMG_WIDTH : ℕ := 256

/-- The URL template of `build_satellite_url` after the f-string interpolation of
the date: adjacent Python string literals concatenate, and the BBOX part keeps
its four `str.format` placeholders. -/
def urlTemplate (date : String) : String :=
  "https://wvs.earthdata.nasa.gov/api/v1/snapshot?" ++
  ("REQUEST=GetSnapshot&TIME=" ++ date) ++
  ("&BBOX=" ++ placeHolder ++ "," ++ placeHolder ++ "," ++ placeHolder ++ "," ++ placeHolder) ++
  "&CRS=EPSG:4326&LAYERS=VIIRS_SNPP_CorrectedReflectance_TrueColor" ++
  "&FORMAT=image/jpeg&WIDTH=512&HEIGHT=512"

/-- Embedding of the worker's `build_satellite_url(lat, lon, date=None)`.
`todayUTC` is the wall-clock date string `datetime.now(timezone.utc).strftime("%Y-%m-%d")`
used when no date is supplied. -/
def build_satellite_url (todayUTC : String) (lat lon : ℚ) (date : Option String) : String :=
  let date := match date with
    | none => todayUTC
    | some d => d
  let min_lon := lon - 1/5
  let max_lon := lon + 1/5
  let min_lat := lat - 1/5
  let max_lat := lat + 1/5
  String.mk (pyFormat (urlTemplate date).toList
    [ratStr min_lon, ratStr min_lat, ratStr max_lon, ratStr max_lat])

/-- The flood percentage computed from the model's output mask:
`float(np.sum(prediction > 0.5) / (IMG_HEIGHT * IMG_WIDTH) * 100)` then `round(_, 2)`.
The mask is the flattened list of the 256*256 output activations. -/
def floodPct (mask : List ℚ) : ℚ :=
  pyRound2 (((mask.filter (fun p => decide ((1 : ℚ)/2 < p))).length : ℚ) /
    ((IMG_HEIGHT : ℚ) * (IMG_WIDTH : ℚ)) * 100)

/-- Outcome of the HTTP fetch and subsequent model inference inside
`get_prediction`: either the request raised (any internal error, caught by the
surrounding `try`), or a response arrived with a status code, a content type,
and an inner computation (preprocessing plus model inference) that either
raised or produced the output mask. -/
inductive FetchOutcome where
  | exn : FetchOutcome
  | resp (statusCode : ℕ) (contentType : String) (inner : Except Unit (List ℚ)) : FetchOutcome

/-- Embedding of the worker's `get_prediction`: on HTTP 200 with an image
content type it reports the rounded flood percentage; on any fetch failure or
internal exception it returns `none` (Python `None`). -/
def get_prediction : FetchOutcome → Option ℚ
  | .exn => none
  | .resp status ct inner =>
    if status == 200 && strContains ct "image" then
      match inner with
      | .error _ => none
      | .ok mask => some (floodPct mask)
    else none

/-! ## prediction_worker/worker.py -/

def THRESHOLD_PERCENT : ℚ := 85

def CHECK_INTERVAL_HOURS : ℚ := 1

/-- A row of the `locations` table.  Time stamps are rationals measured in hours. -/
structure Location where
  id : ℕ
  lat : ℚ
  lon : ℚ
  name : String
  lastCheckedAt : Option ℚ
deriving DecidableEq

/-- A row of the `subscriptions` table. -/
structure Subscription where
  userId : String
  locationId : ℕ
deriving DecidableEq

/-- An alert email sent by `send_alert_email`, tagged with the location that
triggered it. -/
structure EmailEvent where
  toEmails : String
  locationId : ℕ
  locationName : String
  pct : ℚ
deriving DecidableEq

/-- A row of the `notifications` table as inserted by `create_notification`. -/
structure NotificationRow where
  userId : String
  locationId : ℕ
  locationName : String
  floodPercentage : ℚ
  isRead : Bool
deriving DecidableEq

/-- Embedding of `get_locations_to_check`: all rows whose `last_checked_at` is
either null or strictly before `now - CHECK_INTERVAL_HOURS`. -/
def get_locations_to_check (now : ℚ) (db : List Location) : List Location :=
  db.filter (fun l =>
    match l.lastCheckedAt with
    | none => true
    | some t => decide (t < now - CHECK_INTERVAL_HOURS))

/-- Embedding of `update_location_timestamp`: set `last_checked_at` of the rows
with the given id to the current time. -/
def update_location_timestamp (now : ℚ) (locId : ℕ) (db : List Location) : List Location :=
  db.map (fun r => if r.id = locId then { r with lastCheckedAt := some now } else r)

/-- Embedding of `get_subscribed_users`: the user ids subscribed to the
location, each paired with the email the auth admin API reports for it; users
without an email are dropped.  `emailDir` is the auth directory. -/
def get_subscribed_users (subs : List Subscription) (emailDir : String → Option String)
    (locId : ℕ) : List (String × String) :=
  ((subs.filter (fun s => s.locationId == locId)).map Subscription.userId).filterMap
    (fun uid => (emailDir uid).map (fun e => (uid, e)))

/-- State threaded through one run of `main_loop`: the `locations` table plus
the accumulated side effects (emails sent, notification rows inserted). -/
structure WorkerEffects where
  db : List Location
  emails : List EmailEvent
  notifs : List NotificationRow
deriving DecidableEq

/-- One iteration of the `for loc in locations` body of `main_loop`.
`oracle` gives the outcome of `get_prediction` for a location: `.error` when the
call raised (caught, `continue` before the timestamp update), `.ok none` for a
failed prediction (timestamp updated, then skipped), `.ok (some pct)` for a
successful one. -/
def processLocation (oracle : Location → Except Unit (Option ℚ))
    (subs : List Subscription) (emailDir : String → Option String) (now : ℚ)
    (st : WorkerEffects) (loc : Location) : WorkerEffects :=
  match oracle loc with
  | .error _ => st
  | .ok res =>
    let db1 := update_location_timestamp now loc.id st.db
    match res with
    | none => { st with db := db1 }
    | some pct =>
      if THRESHOLD_PERCENT < pct then
        let users := get_subscribed_users subs emailDir loc.id
        { db := db1
          emails := st.emails ++ users.map (fun u =>
            { toEmails := u.2, locationId := loc.id, locationName := loc.name, pct := pct })
          notifs := st.notifs ++ users.map (fun u =>
            { userId := u.1, locationId := loc.id, locationName := loc.name,
              floodPercentage := pct, isRead := false }) }
      else { st with db := db1 }

/-- Embedding of one run of the worker's `main_loop` at time `now`. -/
def main_loop (oracle : Location → Except Unit (Option ℚ))
    (subs : List Subscription) (emailDir : String → Option String) (now : ℚ)
    (db : List Location) : WorkerEffects :=
  (get_locations_to_check now db).foldl
    (processLocation oracle subs emailDir now) ⟨db, [], []⟩

/-- The alert emails one location contributes to a run of `main_loop`. -/
def locEmails (oracle : Location → Except Unit (Option ℚ))
    (subs : List Subscription) (emailDir : String → Option String)
    (loc : Location) : List EmailEvent :=
  match oracle loc with
  | .error _ => []
  | .ok none => []
  | .ok (some pct) =>
    if THRESHOLD_PERCENT < pct then
      (get_subscribed_users subs emailDir loc.id).map (fun u =>
        { toEmails := u.2, locationId := loc.id, locationName := loc.name, pct := pct })
    else []

/-- The notification rows one location contributes to a run of `main_loop`. -/
def locNotifs (oracle : Location → Except Unit (Option ℚ))
    (subs : List Subscription) (emailDir : String → Option String)
    (loc : Location) : List NotificationRow :=
  match oracle loc with
  | .error _ => []
  | .ok none => []
  | .ok (some pct) =>
    if THRESHOLD_PERCENT < pct then
      (get_subscribed_users subs emailDir loc.id).map (fun u =>
        { userId := u.1, locationId := loc.id, locationName := loc.name,
          floodPercentage := pct, isRead := false })
    else []

/-- Did `get_prediction` return (rather than raise) for this location? -/
def okLoc (oracle : Location → Except Unit (Option ℚ)) (l : Location) : Bool :=
  match oracle l with
  | .ok _ => true
  | .error _ => false

end PredictionWorker

/-! ## middleware_api/prediction_utils.py -/

namespace MiddlewareApi

def IMG_HEIGHT : ℕ := 256

def IMG_WIDTH : ℕ := 256

def MIN_IMAGE_SIZE_BYTES : ℕ := 2000

/-- The URL template of the middleware copy of `build_satellite_url`, identical
to the worker copy. -/
def urlTemplate (date : String) : String :=
  "https://wvs.earthdata.nasa.gov/api/v1/snapshot?" ++
  ("REQUEST=GetSnapshot&TIME=" ++ date) ++
  ("&BBOX=" ++ placeHolder ++ "," ++ placeHolder ++ "," ++ placeHolder ++ "," ++ placeHolder) ++
  "&CRS=EPSG:4326&LAYERS=VIIRS_SNPP_CorrectedReflectance_TrueColor" ++
  "&FORMAT=image/jpeg&WIDTH=512&HEIGHT=512"

/-- Embedding of the middleware's `build_satellite_url(lat, lon, date=None)`.
`twoDaysAgoUTC` is the wall-clock string
`(datetime.now(timezone.utc) - timedelta(days=2)).strftime("%Y-%m-%d")`
used when no date is supplied (the only difference from the worker copy). -/
def build_satellite_url (twoDaysAgoUTC : String) (lat lon : ℚ) (date : Option String) : String :=
  let date := match date with
    | none => twoDaysAgoUTC
    | some d => d
  let min_lon := lon - 1/5
  let max_lon := lon + 1/5
  let min_lat := lat - 1/5
  let max_lat := lat + 1/5
  String.mk (pyFormat (urlTemplate date).toList
    [ratStr min_lon, ratStr min_lat, ratStr max_lon, ratStr max_lat])

/-- The flood percentage from the output mask, identical to the worker copy. -/
def floodPct (mask : List ℚ) : ℚ :=
  pyRound2 (((mask.filter (fun p => decide ((1 : ℚ)/2 < p))).length : ℚ) /
    ((IMG_HEIGHT : ℚ) * (IMG_WIDTH : ℚ)) * 100)

/-- Outcome of the HTTP fetch and model inference inside the middleware's
`get_prediction`; unlike the worker's, the response records the byte size of
the body, which this copy inspects. -/
inductive FetchOutcome where
  | exn : FetchOutcome
  | resp (statusCode : ℕ) (contentType : String) (bodySize : ℕ)
      (inner : Except Unit (List ℚ)) : FetchOutcome

/-- Embedding of the middleware's `get_prediction`: as the worker's, except
that a successfully fetched image smaller than `MIN_IMAGE_SIZE_BYTES` is
treated as "No Data" and reported as `0.0` percent. -/
def get_prediction : FetchOutcome → Option ℚ
  | .exn => none
  | .resp status ct size inner =>
    if status == 200 && strContains ct "image" then
      if size < MIN_IMAGE_SIZE_BYTES then some 0
      else
        match inner with
        | .error _ => none
        | .ok mask => some (floodPct mask)
    else none

/-! ## middleware_api/main.py -/

/-- The request body of `POST /subscribe` (Pydantic `LocationBase`). -/
structure LocationBase where
  lat : ℚ
  lon : ℚ
  name : String
deriving DecidableEq

/-- A row of the `locations` table as the middleware sees it. -/
structure LocationRow where
  id : ℕ
  lat : ℚ
  lon : ℚ
  name : String
deriving DecidableEq

/-- A row of the `subscriptions` table. -/
structure SubscriptionRow where
  id : ℕ
  userId : String
  locationId : ℕ
deriving DecidableEq

/-- A row of the `notifications` table (Pydantic `Notification`). -/
structure NotificationRecord where
  id : ℕ
  createdAt : ℚ
  userId : String
  locationId : ℕ
  locationName : String
  floodPercentage : ℚ
  isRead : Bool
deriving DecidableEq

/-- The hosted-database state the middleware endpoints read and write. -/
structure MwState where
  locations : List LocationRow
  subscriptions : List SubscriptionRow
  notifications : List NotificationRecord
deriving DecidableEq

/-- Embedding of the `get_user_id` dependency: the `User-ID` header, `none` when
absent; Python `if not user_id` rejects both `None` and the empty string with
HTTP 401. -/
def get_user_id (header : Option String) : Except ℕ String :=
  match header with
  | none => .error 401
  | some s => if s = "" then .error 401 else .ok s

/-- Embedding of Python's `round(q, 6)` used on the subscribe coordinates. -/
def pyRound6 (q : ℚ) : ℚ := (roundHalfEven (q * 1000000) : ℚ) / 1000000

/-- The `/predict` handler body after the auth dependency: 500 when the model
failed to load, 503 when `get_prediction` returned `None`, otherwise the
prediction for the requested coordinates. -/
def predict_body (modelLoaded : Bool) (fetch : FetchOutcome) (lat lon : ℚ) :
    Except ℕ (ℚ × ℚ × ℚ) :=
  if modelLoaded = false then .error 500
  else
    match get_prediction fetch with
    | none => .error 503
    | some p => .ok (lat, lon, p)

/-- Embedding of the `/predict` endpoint `predict_live`. -/
def predict_live (header : Option String) (modelLoaded : Bool) (fetch : FetchOutcome)
    (lat lon : ℚ) : Except ℕ (ℚ × ℚ × ℚ) :=
  match get_user_id header with
  | .error c => .error c
  | .ok _ => predict_body modelLoaded fetch lat lon

/-- The `/subscribe` handler body after the auth dependency: round the
coordinates to 6 decimals, reuse the existing location row with those
coordinates or insert a new one (`newLocId` is the id the database would assign,
`newSubId` likewise for the subscription row), then insert the subscription;
a duplicate `(user_id, location_id)` pair violates `user_location_unique` and is
reported as HTTP 400 — the location row inserted just before stays inserted. -/
def subscribe_body (user_id : String) (loc : LocationBase) (newLocId newSubId : ℕ)
    (st : MwState) : Except ℕ ℕ × MwState :=
  let rounded_lat := pyRound6 loc.lat
  let rounded_lon := pyRound6 loc.lon
  let found := st.locations.filter (fun l =>
    decide (l.lat = rounded_lat) && decide (l.lon = rounded_lon))
  let location_id := match found with
    | l :: _ => l.id
    | [] => newLocId
  let locations1 := match found with
    | _ :: _ => st.locations
    | [] => st.locations ++ [(⟨newLocId, rounded_lat, rounded_lon, loc.name⟩ : LocationRow)]
  if st.subscriptions.any (fun s => s.userId == user_id && s.locationId == location_id) then
    (.error 400, { st with locations := locations1 })
  else
    (.ok newSubId,
      { st with
        locations := locations1
        subscriptions := st.subscriptions ++
          [(⟨newSubId, user_id, location_id⟩ : SubscriptionRow)] })

/-- Embedding of the `/subscribe` endpoint `subscribe_to_location`. -/
def subscribe_to_location (header : Option String) (loc : LocationBase)
    (newLocId newSubId : ℕ) (st : MwState) : Except ℕ ℕ × MwState :=
  match get_user_id header with
  | .error c => (.error c, st)
  | .ok user_id => subscribe_body user_id loc newLocId newSubId st

/-- Modelled from the spec: the hosted-backend RPC `get_user_subscriptions` is
not part of the repository; per the spec the `/subscriptions` endpoint is a
direct pass-through returning the user's subscriptions, each a location id with
its name and coordinates. -/
def get_user_subscriptions (st : MwState) (user_id : String) : List (ℕ × String × ℚ × ℚ) :=
  (st.subscriptions.filter (fun s => s.userId == user_id)).filterMap (fun s =>
    (st.locations.find? (fun l => l.id == s.locationId)).map (fun l =>
      (l.id, l.name, l.lat, l.lon)))

/-- Embedding of the `/subscriptions` endpoint `get_my_subscriptions`. -/
def get_my_subscriptions (header : Option String) (st : MwState) :
    Except ℕ (List (ℕ × String × ℚ × ℚ)) :=
  match get_user_id header with
  | .error c => .error c
  | .ok user_id => .ok (get_user_subscriptions st user_id)

/-- The `/notifications` handler body after the auth dependency: the user's
notification rows, newest first. -/
def notifications_body (user_id : String) (st : MwState) : List NotificationRecord :=
  (st.notifications.filter (fun n => n.userId == user_id)).mergeSort
    (fun a b => decide (b.createdAt ≤ a.createdAt))

/-- Embedding of the `/notifications` endpoint `get_my_notifications`. -/
def get_my_notifications (header : Option String) (st : MwState) :
    Except ℕ (List NotificationRecord) :=
  match get_user_id header with
  | .error c => .error c
  | .ok user_id => .ok (notifications_body user_id st)

/-- The per-row effect of the `/notifications/read` update: rows of the given
user with `is_read` false get `is_read` set to true, every other row is kept. -/
def markRow (user_id : String) (n : NotificationRecord) : NotificationRecord :=
  if n.userId = user_id ∧ n.isRead = false then { n with isRead := true } else n

/-- Embedding of the `/notifications/read` endpoint `mark_notifications_as_read`. -/
def mark_notifications_as_read (header : Option String) (st : MwState) :
    Except ℕ String × MwState :=
  match get_user_id header with
  | .error c => (.error c, st)
  | .ok user_id =>
    (.ok "All notifications marked as read",
      { st with notifications := st.notifications.map (markRow user_id) })

end MiddlewareApi

/-! ## flood_alarm_api/main.py -/

namespace FloodAlarmApi

/-- The URL template of the earliest copy of `build_satellite_url`, identical to
the other two. -/
def urlTemplate (date : String) : String :=
  "https://wvs.earthdata.nasa.gov/api/v1/snapshot?" ++
  ("REQUEST=GetSnapshot&TIME=" ++ date) ++
  ("&BBOX=" ++ placeHolder ++ "," ++ placeHolder ++ "," ++ placeHolder ++ "," ++ placeHolder) ++
  "&CRS=EPSG:4326&LAYERS=VIIRS_SNPP_CorrectedReflectance_TrueColor" ++
  "&FORMAT=image/jpeg&WIDTH=512&HEIGHT=512"

/-- Embedding of `flood_alarm_api`'s `build_satellite_url(lat, lon, date=None)`;
its default date string comes from the naive `datetime.utcnow()`. -/
def build_satellite_url (todayUTCNaive : String) (lat lon : ℚ) (date : Option String) : String :=
  let date := match date with
    | none => todayUTCNaive
    | some d => d
  let min_lon := lon - 1/5
  let max_lon := lon + 1/5
  let min_lat := lat - 1/5
  let max_lat := lat + 1/5
  String.mk (pyFormat (urlTemplate date).toList
    [ratStr min_lon, ratStr min_lat, ratStr max_lon, ratStr max_lat])

end FloodAlarmApi

/-! ## Proof-side helper definitions -/

/-- Concatenation of the images of a list under a list-valued function. -/
def concatMapList (f : α → List β) : List α → List β
  | [] => []
  | a :: t => f a ++ concatMapList f t

namespace PredictionWorker

/-- The ids of the locations of a run for which `get_prediction` returned. -/
def okIds (oracle : Location → Except Unit (Option ℚ)) (locs : List Location) : List ℕ :=
  (locs.filter (okLoc oracle)).map Location.id

/-- Overwrite `last_checked_at` with the current time. -/
def stamp (now : ℚ) (r : Location) : Location := { r with lastCheckedAt := some now }

/-- The row update a run of `main_loop` performs on the `locations` table. -/
def stampIfTouched (oracle : Location → Except Unit (Option ℚ)) (locs : List Location)
    (now : ℚ) (r : Location) : Location :=
  if r.id ∈ okIds oracle locs then stamp now r else r

end PredictionWorker

/-! ## Lemmas about the formatting helpers -/

theorem pyFormat_nil (args : List String) : pyFormat [] args = [] := by
  simp [pyFormat]

theorem pyFormat_single (c : Char) (args : List String) : pyFormat [c] args = [c] := by
  simp [pyFormat]

theorem pyFormat_cons_cons (c1 c2 : Char) (rest : List Char) (args : List String) :
    pyFormat (c1 :: c2 :: rest) args =
      if c1 = lbraceChar ∧ c2 = rbraceChar then
        (match args with
          | a :: args2 => a.toList ++ pyFormat rest args2
          | [] => c1 :: c2 :: pyFormat rest [])
      else c1 :: pyFormat (c2 :: rest) args := by
  rw [pyFormat.eq_def]

theorem pyFormat_cons_of_ne (c : Char) (h : c ≠ lbraceChar) (cs : List Char)
    (args : List String) : pyFormat (c :: cs) args = c :: pyFormat cs args := by
  cases cs with
  | nil => rw [pyFormat_single, pyFormat_nil]
  | cons c2 t =>
    rw [pyFormat_cons_cons, if_neg]
    intro hc
    exact h hc.1

theorem pyFormat_nil_args : ∀ cs : List Char, pyFormat cs [] = cs
  | [] => by rw [pyFormat_nil]
  | [c] => by rw [pyFormat_single]
  | c1 :: c2 :: rest => by
    rw [pyFormat_cons_cons]
    split
    · rw [pyFormat_nil_args rest]
    · rw [pyFormat_nil_args (c2 :: rest)]
termination_by cs => cs.length

theorem pyFormat_append (A : List Char) (h : ∀ c ∈ A, c ≠ lbraceChar) (cs : List Char)
    (args : List String) : pyFormat (A ++ cs) args = A ++ pyFormat cs args := by
  induction A with
  | nil => simp
  | cons a A ih =>
    rw [List.cons_append, pyFormat_cons_of_ne a (h a (by simp)), List.cons_append,
      ih (fun c hc => h c (by simp [hc]))]

theorem pyFormat_placeholder (cs : List Char) (a : String) (args : List String) :
    pyFormat (lbraceChar :: rbraceChar :: cs) (a :: args) = a.toList ++ pyFormat cs args := by
  rw [pyFormat_cons_cons, if_pos ⟨rfl, rfl⟩]

theorem data_mk (l : List Char) : (String.mk l).data = l := rfl

/-! ## Lemmas about rounding and the flood percentage -/

theorem roundHalfEven_nonneg (q : ℚ) (h : 0 ≤ q) : 0 ≤ roundHalfEven q := by
  have h0 : (0 : ℤ) ≤ ⌊q⌋ := Int.floor_nonneg.mpr h
  unfold roundHalfEven
  split
  · exact h0
  · split
    · omega
    · split
      · exact h0
      · omega

theorem roundHalfEven_le (q : ℚ) (n : ℤ) (h : q ≤ (n : ℚ)) : roundHalfEven q ≤ n := by
  have hfl : ⌊q⌋ ≤ n := by
    have h2 := Int.floor_mono h
    simpa using h2
  have hq : (⌊q⌋ : ℚ) ≤ q := Int.floor_le q
  have hlt : ¬ (q - ⌊q⌋ < 1/2) → ⌊q⌋ + 1 ≤ n := by
    intro hge
    have h1 : (1 : ℚ)/2 ≤ q - ⌊q⌋ := not_lt.mp hge
    have h2 : (⌊q⌋ : ℚ) < (n : ℚ) := by linarith
    have h3 : ⌊q⌋ < n := by exact_mod_cast h2
    omega
  unfold roundHalfEven
  split
  next hA => exact hfl
  next hA =>
    split
    next hB => exact hlt hA
    next hB =>
      split
      next hC => exact hfl
      next hC => exact hlt hA

theorem pyRound2_bounds (q : ℚ) (h0 : 0 ≤ q) (h1 : q ≤ 100) :
    0 ≤ pyRound2 q ∧ pyRound2 q ≤ 100 := by
  have ha : (0 : ℤ) ≤ roundHalfEven (q * 100) := roundHalfEven_nonneg _ (by positivity)
  have hb : roundHalfEven (q * 100) ≤ (10000 : ℤ) := by
    apply roundHalfEven_le
    push_cast
    linarith
  have ha2 : (0 : ℚ) ≤ (roundHalfEven (q * 100) : ℚ) := by exact_mod_cast ha
  have hb2 : (roundHalfEven (q * 100) : ℚ) ≤ 10000 := by exact_mod_cast hb
  unfold pyRound2
  constructor
  · linarith
  · linarith

theorem floodPct_bounds (mask : List ℚ) (hlen : mask.length ≤ 65536) :
    0 ≤ PredictionWorker.floodPct mask ∧ PredictionWorker.floodPct mask ≤ 100 := by
  have hc : (mask.filter (fun p => decide ((1 : ℚ)/2 < p))).length ≤ 65536 :=
    le_trans (List.length_filter_le _ _) hlen
  have hcq : ((mask.filter (fun p => decide ((1 : ℚ)/2 < p))).length : ℚ) ≤ 65536 := by
    exact_mod_cast hc
  unfold PredictionWorker.floodPct
  apply pyRound2_bounds
  · have : (0 : ℚ) ≤ ((mask.filter (fun p => decide ((1 : ℚ)/2 < p))).length : ℚ) := by
      positivity
    unfold PredictionWorker.IMG_HEIGHT PredictionWorker.IMG_WIDTH
    positivity
  · unfold PredictionWorker.IMG_HEIGHT PredictionWorker.IMG_WIDTH
    push_cast
    rw [div_mul_eq_mul_div, div_le_iff₀ (by norm_num)]
    linarith

theorem MiddlewareApi_floodPct_eq : MiddlewareApi.floodPct = PredictionWorker.floodPct := rfl

/-! ## Claim C2: the flood percentage formula and its range -/

/-- Claim C2: for every model output mask (256*256 activations) a successful
`get_prediction` reports the share of mask pixels strictly above 0.5 over the
256*256 total, times 100, rounded to 2 decimal places, and every percentage a
`get_prediction` can report lies in the closed interval [0, 100] — for the
worker copy and the middleware copy alike. -/
theorem C2_flood_percentage (mask : List ℚ) (ct : String)
    (hlen : mask.length = PredictionWorker.IMG_HEIGHT * PredictionWorker.IMG_WIDTH)
    (hct : strContains ct "image" = true) :
    PredictionWorker.get_prediction (.resp 200 ct (.ok mask)) =
      some (pyRound2 (((mask.filter (fun p => decide ((1 : ℚ)/2 < p))).length : ℚ) /
        ((PredictionWorker.IMG_HEIGHT : ℚ) * (PredictionWorker.IMG_WIDTH : ℚ)) * 100))
    ∧ (∀ q, PredictionWorker.get_prediction (.resp 200 ct (.ok mask)) = some q →
        0 ≤ q ∧ q ≤ 100)
    ∧ (∀ size q, MiddlewareApi.get_prediction (.resp 200 ct size (.ok mask)) = some q →
        0 ≤ q ∧ q ≤ 100) := by
  have hlen2 : mask.length ≤ 65536 := by
    rw [hlen]
    norm_num [PredictionWorker.IMG_HEIGHT, PredictionWorker.IMG_WIDTH]
  have hbounds := floodPct_bounds mask hlen2
  have hrun : PredictionWorker.get_prediction (.resp 200 ct (.ok mask)) =
      some (PredictionWorker.floodPct mask) := by
    simp [PredictionWorker.get_prediction, hct]
  refine ⟨?_, ?_, ?_⟩
  · rw [hrun]
    rfl
  · intro q hq
    rw [hrun] at hq
    obtain rfl : PredictionWorker.floodPct mask = q := by
      exact Option.some.inj hq
    exact hbounds
  · intro size q hq
    simp only [MiddlewareApi.get_prediction] at hq
    rw [if_pos (by simp [hct])] at hq
    by_cases hsz : size < MiddlewareApi.MIN_IMAGE_SIZE_BYTES
    · rw [if_pos hsz] at hq
      obtain rfl : (0 : ℚ) = q := Option.some.inj hq
      norm_num
    · rw [if_neg hsz] at hq
      obtain rfl : MiddlewareApi.floodPct mask = q := Option.some.inj hq
      rw [MiddlewareApi_floodPct_eq]
      exact hbounds

/-- Witness for C2 on the all-zero 256*256 mask and an image content type. -/
theorem C2_flood_percentage_witness :
    (List.replicate (256 * 256) (0 : ℚ)).length =
      PredictionWorker.IMG_HEIGHT * PredictionWorker.IMG_WIDTH
    ∧ strContains "image/jpeg" "image" = true
    ∧ PredictionWorker.get_prediction (.resp 200 "image/jpeg" (.ok (List.replicate (256 * 256) 0))) =
      some (pyRound2 ((((List.replicate (256 * 256) (0 : ℚ)).filter
          (fun p => decide ((1 : ℚ)/2 < p))).length : ℚ) /
        ((PredictionWorker.IMG_HEIGHT : ℚ) * (PredictionWorker.IMG_WIDTH : ℚ)) * 100)) :=
  ⟨by rw [List.length_replicate]; norm_num [PredictionWorker.IMG_HEIGHT,
      PredictionWorker.IMG_WIDTH], by decide,
    (C2_flood_percentage (List.replicate (256 * 256) 0) "image/jpeg"
      (by rw [List.length_replicate]; norm_num [PredictionWorker.IMG_HEIGHT,
        PredictionWorker.IMG_WIDTH]) (by decide)).1⟩

/-! ## Claim C5: the BBOX parameter of build_satellite_url -/

/-- Claim C5: for every latitude and longitude (and every supplied brace-free
date string), each of the three copies of `build_satellite_url` returns a URL
whose BBOX parameter holds the four values `lon-0.2, lat-0.2, lon+0.2, lat+0.2`
in that order — a box 0.4 degrees wide in each axis centred on the coordinates —
and whose remaining query parameters (REQUEST, CRS, LAYERS, FORMAT, 512x512
size) are the fixed constants of the template; when no date is supplied, the
default wall-clock date string takes its place. -/
theorem C5_bbox_of_build_satellite_url (today date : String) (lat lon : ℚ)
    (hd : ∀ c ∈ date.data, c ≠ lbraceChar) :
    (PredictionWorker.build_satellite_url today lat lon (some date) =
      "https://wvs.earthdata.nasa.gov/api/v1/snapshot?" ++ "REQUEST=GetSnapshot&TIME=" ++ date ++
      "&BBOX=" ++ ratStr (lon - 1/5) ++ "," ++ ratStr (lat - 1/5) ++ "," ++
      ratStr (lon + 1/5) ++ "," ++ ratStr (lat + 1/5) ++
      "&CRS=EPSG:4326&LAYERS=VIIRS_SNPP_CorrectedReflectance_TrueColor" ++
      "&FORMAT=image/jpeg&WIDTH=512&HEIGHT=512")
    ∧ (MiddlewareApi.build_satellite_url today lat lon (some date) =
      "https://wvs.earthdata.nasa.gov/api/v1/snapshot?" ++ "REQUEST=GetSnapshot&TIME=" ++ date ++
      "&BBOX=" ++ ratStr (lon - 1/5) ++ "," ++ ratStr (lat - 1/5) ++ "," ++
      ratStr (lon + 1/5) ++ "," ++ ratStr (lat + 1/5) ++
      "&CRS=EPSG:4326&LAYERS=VIIRS_SNPP_CorrectedReflectance_TrueColor" ++
      "&FORMAT=image/jpeg&WIDTH=512&HEIGHT=512")
    ∧ (FloodAlarmApi.build_satellite_url today lat lon (some date) =
      "https://wvs.earthdata.nasa.gov/api/v1/snapshot?" ++ "REQUEST=GetSnapshot&TIME=" ++ date ++
      "&BBOX=" ++ ratStr (lon - 1/5) ++ "," ++ ratStr (lat - 1/5) ++ "," ++
      ratStr (lon + 1/5) ++ "," ++ ratStr (lat + 1/5) ++
      "&CRS=EPSG:4326&LAYERS=VIIRS_SNPP_CorrectedReflectance_TrueColor" ++
      "&FORMAT=image/jpeg&WIDTH=512&HEIGHT=512")
    ∧ PredictionWorker.build_satellite_url today lat lon none =
        PredictionWorker.build_satellite_url today lat lon (some today) := by
  refine ⟨?_, ?_, ?_, rfl⟩
  · apply String.ext
    simp only [PredictionWorker.build_satellite_url, PredictionWorker.urlTemplate, placeHolder,
      String.toList, data_mk, String.data_append, List.append_assoc, List.cons_append,
      List.nil_append]
    simp +decide only [pyFormat_cons_of_ne, pyFormat_placeholder, pyFormat_nil_args]
    rw [pyFormat_append _ hd]
    simp +decide only [pyFormat_cons_of_ne, pyFormat_placeholder, pyFormat_nil_args]
    simp [String.toList]
  · apply String.ext
    simp only [MiddlewareApi.build_satellite_url, MiddlewareApi.urlTemplate, placeHolder,
      String.toList, data_mk, String.data_append, List.append_assoc, List.cons_append,
      List.nil_append]
    simp +decide only [pyFormat_cons_of_ne, pyFormat_placeholder, pyFormat_nil_args]
    rw [pyFormat_append _ hd]
    simp +decide only [pyFormat_cons_of_ne, pyFormat_placeholder, pyFormat_nil_args]
    simp [String.toList]
  · apply String.ext
    simp only [FloodAlarmApi.build_satellite_url, FloodAlarmApi.urlTemplate, placeHolder,
      String.toList, data_mk, String.data_append, List.append_assoc, List.cons_append,
      List.nil_append]
    simp +decide only [pyFormat_cons_of_ne, pyFormat_placeholder, pyFormat_nil_args]
    rw [pyFormat_append _ hd]
    simp +decide only [pyFormat_cons_of_ne, pyFormat_placeholder, pyFormat_nil_args]
    simp [String.toList]

/-- Witness for C5 at a concrete date and concrete coordinates. -/
theorem C5_bbox_witness :
    (∀ c ∈ ("2024-01-01" : String).data, c ≠ lbraceChar) ∧
    PredictionWorker.build_satellite_url "2024-01-03" 3 7 (some "2024-01-01") =
      "https://wvs.earthdata.nasa.gov/api/v1/snapshot?" ++ "REQUEST=GetSnapshot&TIME=" ++
      "2024-01-01" ++
      "&BBOX=" ++ ratStr ((7 : ℚ) - 1/5) ++ "," ++ ratStr ((3 : ℚ) - 1/5) ++ "," ++
      ratStr ((7 : ℚ) + 1/5) ++ "," ++ ratStr ((3 : ℚ) + 1/5) ++
      "&CRS=EPSG:4326&LAYERS=VIIRS_SNPP_CorrectedReflectance_TrueColor" ++
      "&FORMAT=image/jpeg&WIDTH=512&HEIGHT=512" :=
  ⟨by decide, (C5_bbox_of_build_satellite_url "2024-01-03" "2024-01-01" 3 7 (by decide)).1⟩

/-! ## Lemmas about the worker's main loop -/

theorem mem_concatMapList {f : α → List β} {b : β} :
    ∀ {l : List α}, b ∈ concatMapList f l ↔ ∃ a ∈ l, b ∈ f a := by
  intro l
  induction l with
  | nil => simp [concatMapList]
  | cons a t ih => simp [concatMapList, ih]

namespace PredictionWorker

theorem processLocation_emails (oracle : Location → Except Unit (Option ℚ))
    (subs : List Subscription) (emailDir : String → Option String) (now : ℚ)
    (st : WorkerEffects) (loc : Location) :
    (processLocation oracle subs emailDir now st loc).emails =
      st.emails ++ locEmails oracle subs emailDir loc := by
  unfold processLocation locEmails
  cases h : oracle loc with
  | error e => simp
  | ok res =>
    cases res with
    | none => simp
    | some pct => by_cases hp : THRESHOLD_PERCENT < pct <;> simp [hp]

theorem processLocation_notifs (oracle : Location → Except Unit (Option ℚ))
    (subs : List Subscription) (emailDir : String → Option String) (now : ℚ)
    (st : WorkerEffects) (loc : Location) :
    (processLocation oracle subs emailDir now st loc).notifs =
      st.notifs ++ locNotifs oracle subs emailDir loc := by
  unfold processLocation locNotifs
  cases h : oracle loc with
  | error e => simp
  | ok res =>
    cases res with
    | none => simp
    | some pct => by_cases hp : THRESHOLD_PERCENT < pct <;> simp [hp]

theorem processLocation_db (oracle : Location → Except Unit (Option ℚ))
    (subs : List Subscription) (emailDir : String → Option String) (now : ℚ)
    (st : WorkerEffects) (loc : Location) :
    (processLocation oracle subs emailDir now st loc).db =
      if okLoc oracle loc then update_location_timestamp now loc.id st.db else st.db := by
  unfold processLocation okLoc
  cases h : oracle loc with
  | error e => simp
  | ok res =>
    cases res with
    | none => simp
    | some pct => by_cases hp : THRESHOLD_PERCENT < pct <;> simp [hp]

theorem foldl_process_emails (oracle : Location → Except Unit (Option ℚ))
    (subs : List Subscription) (emailDir : String → Option String) (now : ℚ) :
    ∀ (locs : List Location) (st : WorkerEffects),
    (locs.foldl (processLocation oracle subs emailDir now) st).emails =
      st.emails ++ concatMapList (locEmails oracle subs emailDir) locs := by
  intro locs
  induction locs with
  | nil => intro st; simp [concatMapList]
  | cons l t ih =>
    intro st
    rw [List.foldl_cons, ih, processLocation_emails]
    simp [concatMapList]

theorem foldl_process_notifs (oracle : Location → Except Unit (Option ℚ))
    (subs : List Subscription) (emailDir : String → Option String) (now : ℚ) :
    ∀ (locs : List Location) (st : WorkerEffects),
    (locs.foldl (processLocation oracle subs emailDir now) st).notifs =
      st.notifs ++ concatMapList (locNotifs oracle subs emailDir) locs := by
  intro locs
  induction locs with
  | nil => intro st; simp [concatMapList]
  | cons l t ih =>
    intro st
    rw [List.foldl_cons, ih, processLocation_notifs]
    simp [concatMapList]

theorem okIds_cons (oracle : Location → Except Unit (Option ℚ)) (l : Location)
    (t : List Location) :
    okIds oracle (l :: t) =
      if okLoc oracle l then l.id :: okIds oracle t else okIds oracle t := by
  unfold okIds
  by_cases h : okLoc oracle l <;> simp [h, List.filter_cons]

theorem stampIfTouched_id (oracle : Location → Except Unit (Option ℚ))
    (locs : List Location) (now : ℚ) (r : Location) :
    (stampIfTouched oracle locs now r).id = r.id := by
  unfold stampIfTouched stamp
  split <;> rfl

theorem update_eq_map (now : ℚ) (locId : ℕ) (db : List Location) :
    update_location_timestamp now locId db =
      db.map (fun r => if r.id = locId then stamp now r else r) := rfl

theorem foldl_process_db (oracle : Location → Except Unit (Option ℚ))
    (subs : List Subscription) (emailDir : String → Option String) (now : ℚ) :
    ∀ (locs : List Location) (st : WorkerEffects),
    (locs.foldl (processLocation oracle subs emailDir now) st).db =
      st.db.map (stampIfTouched oracle locs now) := by
  intro locs
  induction locs with
  | nil =>
    intro st
    have hh : st.db.map (stampIfTouched oracle [] now) = st.db := by
      have h : ∀ r ∈ st.db, stampIfTouched oracle [] now r = id r := by
        intro r _
        unfold stampIfTouched okIds
        simp
      rw [List.map_congr_left h, List.map_id]
    rw [List.foldl_nil, hh]
  | cons l t ih =>
    intro st
    rw [List.foldl_cons, ih, processLocation_db]
    by_cases h : okLoc oracle l
    · rw [if_pos h, update_eq_map, List.map_map]
      apply List.map_congr_left
      intro r _
      show stampIfTouched oracle t now (if r.id = l.id then stamp now r else r) =
        stampIfTouched oracle (l :: t) now r
      by_cases hid : r.id = l.id
      · rw [if_pos hid]
        unfold stampIfTouched
        rw [okIds_cons, if_pos h]
        have hs : stamp now (stamp now r) = stamp now r := rfl
        have hsid : (stamp now r).id = r.id := rfl
        by_cases hmem : (stamp now r).id ∈ okIds oracle t
        · rw [if_pos hmem, hs, if_pos (by rw [List.mem_cons]; exact Or.inl hid)]
        · rw [if_neg hmem, if_pos (by rw [List.mem_cons]; exact Or.inl hid)]
      · rw [if_neg hid]
        unfold stampIfTouched
        rw [okIds_cons, if_pos h]
        have : (r.id ∈ l.id :: okIds oracle t) ↔ r.id ∈ okIds oracle t := by
          rw [List.mem_cons]
          exact or_iff_right hid
        by_cases hmem : r.id ∈ okIds oracle t
        · rw [if_pos hmem, if_pos (this.mpr hmem)]
        · rw [if_neg hmem, if_neg (fun hc => hmem (this.mp hc))]
    · rw [if_neg h]
      apply List.map_congr_left
      intro r _
      unfold stampIfTouched
      rw [okIds_cons, if_neg h]

theorem main_loop_db (oracle : Location → Except Unit (Option ℚ))
    (subs : List Subscription) (emailDir : String → Option String) (now : ℚ)
    (db : List Location) :
    (main_loop oracle subs emailDir now db).db =
      db.map (stampIfTouched oracle (get_locations_to_check now db) now) := by
  unfold main_loop
  rw [foldl_process_db]

theorem main_loop_emails (oracle : Location → Except Unit (Option ℚ))
    (subs : List Subscription) (emailDir : String → Option String) (now : ℚ)
    (db : List Location) :
    (main_loop oracle subs emailDir now db).emails =
      concatMapList (locEmails oracle subs emailDir) (get_locations_to_check now db) := by
  unfold main_loop
  rw [foldl_process_emails]
  simp

theorem main_loop_notifs (oracle : Location → Except Unit (Option ℚ))
    (subs : List Subscription) (emailDir : String → Option String) (now : ℚ)
    (db : List Location) :
    (main_loop oracle subs emailDir now db).notifs =
      concatMapList (locNotifs oracle subs emailDir) (get_locations_to_check now db) := by
  unfold main_loop
  rw [foldl_process_notifs]
  simp

theorem locEmails_locationId (oracle : Location → Except Unit (Option ℚ))
    (subs : List Subscription) (emailDir : String → Option String) (loc : Location)
    (e : EmailEvent) (he : e ∈ locEmails oracle subs emailDir loc) :
    e.locationId = loc.id := by
  cases h : oracle loc with
  | error _ => simp [locEmails, h] at he
  | ok res =>
    cases res with
    | none => simp [locEmails, h] at he
    | some pct =>
      simp only [locEmails, h] at he
      by_cases hp : THRESHOLD_PERCENT < pct
      · rw [if_pos hp] at he
        obtain ⟨u, _, rfl⟩ := List.mem_map.mp he
        rfl
      · rw [if_neg hp] at he
        simp at he

theorem locNotifs_locationId (oracle : Location → Except Unit (Option ℚ))
    (subs : List Subscription) (emailDir : String → Option String) (loc : Location)
    (n : NotificationRow) (hn : n ∈ locNotifs oracle subs emailDir loc) :
    n.locationId = loc.id := by
  cases h : oracle loc with
  | error _ => simp [locNotifs, h] at hn
  | ok res =>
    cases res with
    | none => simp [locNotifs, h] at hn
    | some pct =>
      simp only [locNotifs, h] at hn
      by_cases hp : THRESHOLD_PERCENT < pct
      · rw [if_pos hp] at hn
        obtain ⟨u, _, rfl⟩ := List.mem_map.mp hn
        rfl
      · rw [if_neg hp] at hn
        simp at hn

theorem locEmails_eq_nil_of_le (oracle : Location → Except Unit (Option ℚ))
    (subs : List Subscription) (emailDir : String → Option String) (loc : Location)
    (pct : ℚ) (hok : oracle loc = .ok (some pct)) (hle : pct ≤ THRESHOLD_PERCENT) :
    locEmails oracle subs emailDir loc = [] := by
  simp only [locEmails, hok]
  rw [if_neg (not_lt.mpr hle)]

theorem locNotifs_eq_nil_of_le (oracle : Location → Except Unit (Option ℚ))
    (subs : List Subscription) (emailDir : String → Option String) (loc : Location)
    (pct : ℚ) (hok : oracle loc = .ok (some pct)) (hle : pct ≤ THRESHOLD_PERCENT) :
    locNotifs oracle subs emailDir loc = [] := by
  simp only [locNotifs, hok]
  rw [if_neg (not_lt.mpr hle)]

theorem locEmails_eq_nil_of_none (oracle : Location → Except Unit (Option ℚ))
    (subs : List Subscription) (emailDir : String → Option String) (loc : Location)
    (hok : oracle loc = .ok none) : locEmails oracle subs emailDir loc = [] := by
  simp [locEmails, hok]

theorem locNotifs_eq_nil_of_none (oracle : Location → Except Unit (Option ℚ))
    (subs : List Subscription) (emailDir : String → Option String) (loc : Location)
    (hok : oracle loc = .ok none) : locNotifs oracle subs emailDir loc = [] := by
  simp [locNotifs, hok]

theorem mem_of_mem_check (now : ℚ) (db : List Location) (l : Location)
    (h : l ∈ get_locations_to_check now db) : l ∈ db :=
  (List.mem_filter.mp h).1

theorem eq_of_mem_of_id (db : List Location) (hnd : (db.map Location.id).Nodup)
    (l1 l2 : Location) (h1 : l1 ∈ db) (h2 : l2 ∈ db) (hid : l1.id = l2.id) : l1 = l2 :=
  List.inj_on_of_nodup_map hnd h1 h2 hid

/-! ## Claim C1: alerts are sent exactly above the fixed threshold -/

/-- Claim C1: in a run of the worker's `main_loop`, a processed location whose
prediction succeeded with percentage `pct` has its subscribed users looked up
and gets an alert email plus a notification row for each of them if and only if
`pct` strictly exceeds `THRESHOLD_PERCENT = 85`; at or below the threshold the
location produces no email and no notification row.  Location ids are assumed
unique, as for a primary key. -/
theorem C1_alert_iff_threshold (oracle : Location → Except Unit (Option ℚ))
    (subs : List Subscription) (emailDir : String → Option String) (now : ℚ)
    (db : List Location) (loc : Location) (pct : ℚ)
    (hnd : (db.map Location.id).Nodup)
    (hmem : loc ∈ get_locations_to_check now db)
    (hok : oracle loc = .ok (some pct)) :
    (THRESHOLD_PERCENT < pct →
      ∀ u ∈ get_subscribed_users subs emailDir loc.id,
        ((⟨u.2, loc.id, loc.name, pct⟩ : EmailEvent) ∈
            (main_loop oracle subs emailDir now db).emails
        ∧ (⟨u.1, loc.id, loc.name, pct, false⟩ : NotificationRow) ∈
            (main_loop oracle subs emailDir now db).notifs))
    ∧ (pct ≤ THRESHOLD_PERCENT →
      (∀ e ∈ (main_loop oracle subs emailDir now db).emails, e.locationId ≠ loc.id)
      ∧ (∀ n ∈ (main_loop oracle subs emailDir now db).notifs, n.locationId ≠ loc.id)) := by
  have hl : loc ∈ db := mem_of_mem_check now db loc hmem
  constructor
  · intro hgt u hu
    constructor
    · rw [main_loop_emails]
      apply mem_concatMapList.mpr
      refine ⟨loc, hmem, ?_⟩
      simp only [locEmails, hok]
      rw [if_pos hgt]
      exact List.mem_map_of_mem _ hu
    · rw [main_loop_notifs]
      apply mem_concatMapList.mpr
      refine ⟨loc, hmem, ?_⟩
      simp only [locNotifs, hok]
      rw [if_pos hgt]
      exact List.mem_map_of_mem _ hu
  · intro hle
    constructor
    · intro e he hid2
      rw [main_loop_emails] at he
      obtain ⟨l2, hl2, hel2⟩ := mem_concatMapList.mp he
      have h1 : e.locationId = l2.id := locEmails_locationId _ _ _ _ _ hel2
      have h2 : l2 = loc := eq_of_mem_of_id db hnd l2 loc
        (mem_of_mem_check _ _ _ hl2) hl (by rw [← h1, hid2])
      rw [h2, locEmails_eq_nil_of_le _ _ _ _ _ hok hle] at hel2
      exact absurd hel2 (List.not_mem_nil _)
    · intro n hn hid2
      rw [main_loop_notifs] at hn
      obtain ⟨l2, hl2, hnl2⟩ := mem_concatMapList.mp hn
      have h1 : n.locationId = l2.id := locNotifs_locationId _ _ _ _ _ hnl2
      have h2 : l2 = loc := eq_of_mem_of_id db hnd l2 loc
        (mem_of_mem_check _ _ _ hl2) hl (by rw [← h1, hid2])
      rw [h2, locNotifs_eq_nil_of_le _ _ _ _ _ hok hle] at hnl2
      exact absurd hnl2 (List.not_mem_nil _)

/-- Witness for C1: one stale location, one subscriber with an email, a 90
percent prediction — the alert email and the notification row are produced. -/
theorem C1_alert_iff_threshold_witness :
    (([(⟨1, 0, 0, "x", none⟩ : Location)].map Location.id).Nodup)
    ∧ (⟨1, 0, 0, "x", none⟩ : Location) ∈
        get_locations_to_check 0 [⟨1, 0, 0, "x", none⟩]
    ∧ THRESHOLD_PERCENT < 90
    ∧ ("u1", "a@b") ∈ get_subscribed_users [⟨"u1", 1⟩] (fun _ => some "a@b") 1
    ∧ (⟨"a@b", 1, "x", 90⟩ : EmailEvent) ∈
        (main_loop (fun _ => .ok (some 90)) [⟨"u1", 1⟩] (fun _ => some "a@b") 0
          [⟨1, 0, 0, "x", none⟩]).emails
    ∧ (⟨"u1", 1, "x", 90, false⟩ : NotificationRow) ∈
        (main_loop (fun _ => .ok (some 90)) [⟨"u1", 1⟩] (fun _ => some "a@b") 0
          [⟨1, 0, 0, "x", none⟩]).notifs := by
  refine ⟨by decide, by decide, by decide, by decide, ?_, ?_⟩
  · exact ((C1_alert_iff_threshold (fun _ => .ok (some 90)) [⟨"u1", 1⟩]
      (fun _ => some "a@b") 0 [⟨1, 0, 0, "x", none⟩] ⟨1, 0, 0, "x", none⟩ 90
      (by decide) (by decide) rfl).1 (by decide) ("u1", "a@b") (by decide)).1
  · exact ((C1_alert_iff_threshold (fun _ => .ok (some 90)) [⟨"u1", 1⟩]
      (fun _ => some "a@b") 0 [⟨1, 0, 0, "x", none⟩] ⟨1, 0, 0, "x", none⟩ 90
      (by decide) (by decide) rfl).1 (by decide) ("u1", "a@b") (by decide)).2

/-! ## Claim C3: no second alert within one check interval -/

/-- Claim C3: once a run of `main_loop` at time `now` has processed a location
(so its `last_checked_at` was set to `now`), `get_locations_to_check` does not
return that location — and hence no later run can alert for it — at any time
`now2` up to `now + CHECK_INTERVAL_HOURS`. -/
theorem C3_no_realert_within_interval (oracle oracle2 : Location → Except Unit (Option ℚ))
    (subs subs2 : List Subscription) (emailDir emailDir2 : String → Option String)
    (now now2 : ℚ) (db db2 : List Location) (loc : Location) (v : Option ℚ)
    (hnd : (db.map Location.id).Nodup)
    (hmem : loc ∈ get_locations_to_check now db)
    (hok : oracle loc = .ok v)
    (hdb2 : db2 = (main_loop oracle subs emailDir now db).db)
    (hnow2 : now2 ≤ now + CHECK_INTERVAL_HOURS) :
    (∀ r ∈ get_locations_to_check now2 db2, r.id ≠ loc.id)
    ∧ (∀ e ∈ (main_loop oracle2 subs2 emailDir2 now2 db2).emails, e.locationId ≠ loc.id)
    ∧ (∀ n ∈ (main_loop oracle2 subs2 emailDir2 now2 db2).notifs, n.locationId ≠ loc.id) := by
  have hl : loc ∈ db := mem_of_mem_check now db loc hmem
  have hokb : okLoc oracle loc = true := by
    unfold okLoc
    rw [hok]
  have hid : loc.id ∈ okIds oracle (get_locations_to_check now db) := by
    unfold okIds
    exact List.mem_map_of_mem _ (List.mem_filter.mpr ⟨hmem, hokb⟩)
  have hA : ∀ r ∈ get_locations_to_check now2 db2, r.id ≠ loc.id := by
    intro r hr hrid
    have hr2 : r ∈ db2 := mem_of_mem_check now2 db2 r hr
    rw [hdb2, main_loop_db] at hr2
    obtain ⟨r0, hr0, hre⟩ := List.mem_map.mp hr2
    have hr0id : r0.id = loc.id := by
      rw [← hrid, ← hre, stampIfTouched_id]
    have heq : r0 = loc := eq_of_mem_of_id db hnd r0 loc hr0 hl hr0id
    subst heq
    have hrs : r = stamp now r0 := by
      rw [← hre]
      unfold stampIfTouched
      rw [if_pos (hr0id ▸ hid)]
    have hts : r.lastCheckedAt = some now := by
      rw [hrs]
      rfl
    have hp := (List.mem_filter.mp hr).2
    rw [hts] at hp
    simp at hp
    linarith
  refine ⟨hA, ?_, ?_⟩
  · intro e he hid2
    rw [main_loop_emails] at he
    obtain ⟨l2, hl2, hel2⟩ := mem_concatMapList.mp he
    have h1 : e.locationId = l2.id := locEmails_locationId _ _ _ _ _ hel2
    exact hA l2 hl2 (by rw [← h1, hid2])
  · intro n hn hid2
    rw [main_loop_notifs] at hn
    obtain ⟨l2, hl2, hnl2⟩ := mem_concatMapList.mp hn
    have h1 : n.locationId = l2.id := locNotifs_locationId _ _ _ _ _ hnl2
    exact hA l2 hl2 (by rw [← h1, hid2])

/-- Witness for C3: after the run at time 0 processes the single location, the
query one full check interval later still excludes it. -/
theorem C3_no_realert_witness :
    ((1 : ℚ) ≤ 0 + CHECK_INTERVAL_HOURS)
    ∧ (∀ r ∈ get_locations_to_check 1
        ((main_loop (fun _ => .ok (some 90)) [] (fun _ => none) 0
          [⟨1, 0, 0, "x", none⟩]).db), r.id ≠ (⟨1, 0, 0, "x", none⟩ : Location).id) :=
  ⟨by norm_num [CHECK_INTERVAL_HOURS],
    (C3_no_realert_within_interval (fun _ => .ok (some 90)) (fun _ => .ok (some 90))
      [] [] (fun _ => none) (fun _ => none) 0 1 [⟨1, 0, 0, "x", none⟩]
      ((main_loop (fun _ => .ok (some 90)) [] (fun _ => none) 0 [⟨1, 0, 0, "x", none⟩]).db)
      ⟨1, 0, 0, "x", none⟩ (some 90) (by decide) (by decide) rfl rfl
      (by norm_num [CHECK_INTERVAL_HOURS])).1⟩

/-! ## Claim C4: get_prediction is total over its failure modes -/

/-- Claim C4: the worker's `get_prediction` always returns (either a percentage
or `None`, the `try` swallowing every exception); it returns `None` on a raised
fetch, on a non-200 status, on a content type not containing "image", and on an
internal error after the fetch; and a location whose prediction returned `None`
produces no alert email and no notification row in `main_loop`. -/
theorem C4_get_prediction_total_and_skip :
    (∀ fo : FetchOutcome, get_prediction fo = none ∨ ∃ q, get_prediction fo = some q)
    ∧ get_prediction .exn = none
    ∧ (∀ (s : ℕ) (ct : String) (inner : Except Unit (List ℚ)), s ≠ 200 →
        get_prediction (.resp s ct inner) = none)
    ∧ (∀ (s : ℕ) (ct : String) (inner : Except Unit (List ℚ)),
        strContains ct "image" = false → get_prediction (.resp s ct inner) = none)
    ∧ (∀ (s : ℕ) (ct : String) (e : Unit), get_prediction (.resp s ct (.error e)) = none)
    ∧ (∀ (oracle : Location → Except Unit (Option ℚ)) (subs : List Subscription)
        (emailDir : String → Option String) (now : ℚ) (db : List Location) (loc : Location),
        (db.map Location.id).Nodup → loc ∈ db → oracle loc = .ok none →
        (∀ e ∈ (main_loop oracle subs emailDir now db).emails, e.locationId ≠ loc.id)
        ∧ (∀ n ∈ (main_loop oracle subs emailDir now db).notifs, n.locationId ≠ loc.id)) := by
  refine ⟨?_, rfl, ?_, ?_, ?_, ?_⟩
  · intro fo
    cases fo with
    | exn => exact Or.inl rfl
    | resp s ct inner =>
      simp only [get_prediction]
      by_cases h : (s == 200 && strContains ct "image") = true
      · rw [if_pos h]
        cases inner with
        | error e => exact Or.inl rfl
        | ok mask => exact Or.inr ⟨floodPct mask, rfl⟩
      · rw [if_neg h]
        exact Or.inl rfl
  · intro s ct inner hs
    simp only [get_prediction]
    rw [if_neg (by simp [hs])]
  · intro s ct inner hct
    simp only [get_prediction]
    rw [if_neg (by simp [hct])]
  · intro s ct e
    simp only [get_prediction]
    by_cases h : (s == 200 && strContains ct "image") = true
    · rw [if_pos h]
    · rw [if_neg h]
  · intro oracle subs emailDir now db loc hnd hl hok
    constructor
    · intro e he hid2
      rw [main_loop_emails] at he
      obtain ⟨l2, hl2, hel2⟩ := mem_concatMapList.mp he
      have h1 : e.locationId = l2.id := locEmails_locationId _ _ _ _ _ hel2
      have h2 : l2 = loc := eq_of_mem_of_id db hnd l2 loc
        (mem_of_mem_check _ _ _ hl2) hl (by rw [← h1, hid2])
      rw [h2, locEmails_eq_nil_of_none _ _ _ _ hok] at hel2
      exact absurd hel2 (List.not_mem_nil _)
    · intro n hn hid2
      rw [main_loop_notifs] at hn
      obtain ⟨l2, hl2, hnl2⟩ := mem_concatMapList.mp hn
      have h1 : n.locationId = l2.id := locNotifs_locationId _ _ _ _ _ hnl2
      have h2 : l2 = loc := eq_of_mem_of_id db hnd l2 loc
        (mem_of_mem_check _ _ _ hl2) hl (by rw [← h1, hid2])
      rw [h2, locNotifs_eq_nil_of_none _ _ _ _ hok] at hnl2
      exact absurd hnl2 (List.not_mem_nil _)

/-- Witness for C4: the failure conjuncts applied at a 404 HTML response, and
the skip conjunct applied to a one-location run whose prediction failed. -/
theorem C4_get_prediction_total_witness :
    ((404 : ℕ) ≠ 200
    ∧ get_prediction (.resp 404 "text/html" (.error ())) = none)
    ∧ (∀ e ∈ (main_loop (fun _ => .ok none) [⟨"u1", 1⟩] (fun _ => some "a@b") 0
        [⟨1, 0, 0, "x", none⟩]).emails, e.locationId ≠ (⟨1, 0, 0, "x", none⟩ : Location).id) :=
  ⟨⟨by decide, C4_get_prediction_total_and_skip.2.2.1 404 "text/html" (.error ()) (by decide)⟩,
    (C4_get_prediction_total_and_skip.2.2.2.2.2 (fun _ => .ok none) [⟨"u1", 1⟩]
      (fun _ => some "a@b") 0 [⟨1, 0, 0, "x", none⟩] ⟨1, 0, 0, "x", none⟩
      (by decide) (by decide) rfl).1⟩

/-! ## Claim C7: the worker only touches the timestamp -/

/-- Claim C7: for a location processed by `main_loop` whose `get_prediction`
call returned (a percentage or `None`), the resulting `locations` table holds
that location's row with `last_checked_at` set to the time of the check and
every other field (id, lat, lon, name) unchanged — and that is the only row
with its id. -/
theorem C7_timestamp_update_frame (oracle : Location → Except Unit (Option ℚ))
    (subs : List Subscription) (emailDir : String → Option String) (now : ℚ)
    (db : List Location) (loc : Location) (v : Option ℚ)
    (hnd : (db.map Location.id).Nodup)
    (hmem : loc ∈ get_locations_to_check now db)
    (hok : oracle loc = .ok v) :
    ((⟨loc.id, loc.lat, loc.lon, loc.name, some now⟩ : Location) ∈
        (main_loop oracle subs emailDir now db).db)
    ∧ (∀ r ∈ (main_loop oracle subs emailDir now db).db, r.id = loc.id →
        r = ⟨loc.id, loc.lat, loc.lon, loc.name, some now⟩) := by
  have hl : loc ∈ db := mem_of_mem_check now db loc hmem
  have hokb : okLoc oracle loc = true := by
    unfold okLoc
    rw [hok]
  have hid : loc.id ∈ okIds oracle (get_locations_to_check now db) := by
    unfold okIds
    exact List.mem_map_of_mem _ (List.mem_filter.mpr ⟨hmem, hokb⟩)
  have hstamp : stampIfTouched oracle (get_locations_to_check now db) now loc =
      ⟨loc.id, loc.lat, loc.lon, loc.name, some now⟩ := by
    unfold stampIfTouched
    rw [if_pos hid]
    rfl
  constructor
  · rw [main_loop_db, ← hstamp]
    exact List.mem_map_of_mem _ hl
  · intro r hr hrid
    rw [main_loop_db] at hr
    obtain ⟨r0, hr0, hre⟩ := List.mem_map.mp hr
    have hr0id : r0.id = loc.id := by
      rw [← hrid, ← hre, stampIfTouched_id]
    have heq : r0 = loc := eq_of_mem_of_id db hnd r0 loc hr0 hl hr0id
    rw [← hre, heq, hstamp]

/-- Witness for C7: the single processed location reappears with only its
timestamp set. -/
theorem C7_timestamp_update_witness :
    (⟨1, 0, 0, "x", some 0⟩ : Location) ∈
      (main_loop (fun _ => .ok none) [] (fun _ => none) 0 [⟨1, 0, 0, "x", none⟩]).db :=
  (C7_timestamp_update_frame (fun _ => .ok none) [] (fun _ => none) 0
    [⟨1, 0, 0, "x", none⟩] ⟨1, 0, 0, "x", none⟩ none
    (by decide) (by decide) rfl).1

end PredictionWorker

namespace MiddlewareApi

/-! ## Claim C6: header pseudo-authentication on every endpoint -/

/-- Claim C6: each of the five middleware endpoints fails with HTTP 401 when
the `User-ID` header is absent or empty, and otherwise proceeds with the header
value as the requesting user's identity — no further authentication check is
involved, any non-empty header value is accepted. -/
theorem C6_header_auth (hdr : Option String) :
    ((hdr = none ∨ hdr = some "") →
      get_user_id hdr = .error 401
      ∧ (∀ (ml : Bool) (fo : FetchOutcome) (lat lon : ℚ),
          predict_live hdr ml fo lat lon = .error 401)
      ∧ (∀ (loc : LocationBase) (nl ns : ℕ) (st : MwState),
          subscribe_to_location hdr loc nl ns st = (.error 401, st))
      ∧ (∀ st : MwState, get_my_subscriptions hdr st = .error 401)
      ∧ (∀ st : MwState, get_my_notifications hdr st = .error 401)
      ∧ (∀ st : MwState, mark_notifications_as_read hdr st = (.error 401, st)))
    ∧ (∀ s : String, hdr = some s → s ≠ "" →
      get_user_id hdr = .ok s
      ∧ (∀ (ml : Bool) (fo : FetchOutcome) (lat lon : ℚ),
          predict_live hdr ml fo lat lon = predict_body ml fo lat lon)
      ∧ (∀ (loc : LocationBase) (nl ns : ℕ) (st : MwState),
          subscribe_to_location hdr loc nl ns st = subscribe_body s loc nl ns st)
      ∧ (∀ st : MwState, get_my_subscriptions hdr st = .ok (get_user_subscriptions st s))
      ∧ (∀ st : MwState, get_my_notifications hdr st = .ok (notifications_body s st))
      ∧ (∀ st : MwState, mark_notifications_as_read hdr st =
          (.ok "All notifications marked as read",
            { st with notifications := st.notifications.map (markRow s) }))) := by
  constructor
  · intro h
    have hg : get_user_id hdr = .error 401 := by
      rcases h with rfl | rfl
      · rfl
      · simp [get_user_id]
    refine ⟨hg, ?_, ?_, ?_, ?_, ?_⟩
    · intro ml fo lat lon
      simp only [predict_live, hg]
    · intro loc nl ns st
      simp only [subscribe_to_location, hg]
    · intro st
      simp only [get_my_subscriptions, hg]
    · intro st
      simp only [get_my_notifications, hg]
    · intro st
      simp only [mark_notifications_as_read, hg]
  · intro s hs hne
    subst hs
    have hg : get_user_id (some s) = .ok s := by
      simp [get_user_id, hne]
    refine ⟨hg, ?_, ?_, ?_, ?_, ?_⟩
    · intro ml fo lat lon
      simp only [predict_live, hg]
    · intro loc nl ns st
      simp only [subscribe_to_location, hg]
    · intro st
      simp only [get_my_subscriptions, hg]
    · intro st
      simp only [get_my_notifications, hg]
    · intro st
      simp only [mark_notifications_as_read, hg]

/-- Witness for C6: a missing header and an empty header give 401, a non-empty
header is taken as the identity. -/
theorem C6_header_auth_witness :
    get_user_id none = .error 401
    ∧ get_user_id (some "") = .error 401
    ∧ get_user_id (some "u7") = .ok "u7"
    ∧ (∀ st : MwState, get_my_subscriptions (some "u7") st =
        .ok (get_user_subscriptions st "u7")) :=
  ⟨((C6_header_auth none).1 (Or.inl rfl)).1,
    ((C6_header_auth (some "")).1 (Or.inr rfl)).1,
    ((C6_header_auth (some "u7")).2 "u7" rfl (by decide)).1,
    ((C6_header_auth (some "u7")).2 "u7" rfl (by decide)).2.2.2.1⟩

/-! ## Claim C9: a tiny fetched image is reported as exactly 0.0 percent -/

/-- Claim C9: in the middleware's `get_prediction`, an HTTP 200 response with
an image content type whose body is smaller than `MIN_IMAGE_SIZE_BYTES = 2000`
bytes yields `some 0` — the same value a genuine all-dry mask produces at the
public interface — rather than `none` or an error. -/
theorem C9_small_image_reports_zero (ct : String) (size : ℕ) (inner : Except Unit (List ℚ))
    (hct : strContains ct "image" = true) (hsize : size < MIN_IMAGE_SIZE_BYTES) :
    get_prediction (.resp 200 ct size inner) = some 0
    ∧ get_prediction (.resp 200 ct MIN_IMAGE_SIZE_BYTES
        (.ok (List.replicate (256 * 256) 0))) = some 0 := by
  constructor
  · simp only [get_prediction]
    rw [if_pos (by simp [hct]), if_pos hsize]
  · simp only [get_prediction]
    rw [if_pos (by simp [hct]), if_neg (lt_irrefl _)]
    have hfil : (List.replicate (256 * 256) (0 : ℚ)).filter
        (fun p => decide ((1 : ℚ)/2 < p)) = [] := by
      rw [List.filter_eq_nil_iff]
      intro a ha
      rw [List.eq_of_mem_replicate ha]
      norm_num
    have : floodPct (List.replicate (256 * 256) 0) = 0 := by
      unfold floodPct
      rw [hfil]
      norm_num [pyRound2, roundHalfEven]
    rw [this]

/-- Witness for C9: a 100-byte "image/jpeg" body is reported as 0 percent even
though the fetch outright failed to carry a usable image. -/
theorem C9_small_image_witness :
    strContains "image/jpeg" "image" = true
    ∧ (100 : ℕ) < MIN_IMAGE_SIZE_BYTES
    ∧ get_prediction (.resp 200 "image/jpeg" 100 (.error ())) = some 0 :=
  ⟨by decide, by decide,
    (C9_small_image_reports_zero "image/jpeg" 100 (.error ()) (by decide) (by decide)).1⟩

/-! ## Claim C10: marking notifications read touches exactly the user's unread rows -/

/-- Claim C10: `POST /notifications/read` maps `markRow` over the notifications
table: a row of the requesting user with `is_read` false gets `is_read` set to
true, every other row — other users' rows and already-read rows — is returned
unchanged, no other field is touched, and repeating the call changes nothing
further. -/
theorem C10_mark_notifications_read (u : String) (hu : u ≠ "") (st : MwState)
    (n : NotificationRecord) :
    (mark_notifications_as_read (some u) st).2 =
      { st with notifications := st.notifications.map (markRow u) }
    ∧ (n.userId = u ∧ n.isRead = false → markRow u n = { n with isRead := true })
    ∧ (¬(n.userId = u ∧ n.isRead = false) → markRow u n = n)
    ∧ (markRow u n).id = n.id
    ∧ (markRow u n).createdAt = n.createdAt
    ∧ (markRow u n).userId = n.userId
    ∧ (markRow u n).locationId = n.locationId
    ∧ (markRow u n).locationName = n.locationName
    ∧ (markRow u n).floodPercentage = n.floodPercentage
    ∧ (mark_notifications_as_read (some u)
        (mark_notifications_as_read (some u) st).2).2 =
      (mark_notifications_as_read (some u) st).2 := by
  have hg : get_user_id (some u) = .ok u := by
    simp [get_user_id, hu]
  have hm : ∀ s : MwState, (mark_notifications_as_read (some u) s).2 =
      { s with notifications := s.notifications.map (markRow u) } := by
    intro s
    simp only [mark_notifications_as_read, hg]
  have hidem : ∀ m : NotificationRecord, markRow u (markRow u m) = markRow u m := by
    intro m
    unfold markRow
    by_cases h : m.userId = u ∧ m.isRead = false
    · rw [if_pos h, if_neg (by simp)]
    · rw [if_neg h, if_neg h]
  refine ⟨hm st, ?_, ?_, ?_, ?_, ?_, ?_, ?_, ?_, ?_⟩
  · intro h
    unfold markRow
    rw [if_pos h]
  · intro h
    unfold markRow
    rw [if_neg h]
  · unfold markRow
    split <;> rfl
  · unfold markRow
    split <;> rfl
  · unfold markRow
    split <;> rfl
  · unfold markRow
    split <;> rfl
  · unfold markRow
    split <;> rfl
  · unfold markRow
    split <;> rfl
  · rw [hm st, hm _]
    have : (st.notifications.map (markRow u)).map (markRow u) =
        st.notifications.map (markRow u) := by
      rw [List.map_map]
      exact List.map_congr_left (fun m _ => hidem m)
    rw [this]

/-- Witness for C10: one unread row of the requesting user. -/
theorem C10_mark_notifications_witness :
    ("u1" : String) ≠ ""
    ∧ (mark_notifications_as_read (some "u1")
        (⟨[], [], [⟨1, 0, "u1", 2, "x", 90, false⟩]⟩ : MwState)).2 =
      { (⟨[], [], [⟨1, 0, "u1", 2, "x", 90, false⟩]⟩ : MwState) with
        notifications := [(⟨1, 0, "u1", 2, "x", 90, false⟩ : NotificationRecord)].map
          (markRow "u1") } :=
  ⟨by decide,
    (C10_mark_notifications_read "u1" (by decide)
      ⟨[], [], [⟨1, 0, "u1", 2, "x", 90, false⟩]⟩ ⟨1, 0, "u1", 2, "x", 90, false⟩).1⟩

end MiddlewareApi

/-! ## Claim C8: the worker and middleware URL builders agree on explicit dates -/

/-- Claim C8: for every latitude, longitude and explicitly supplied date string,
the worker's and the middleware's copies of `build_satellite_url` return
character-for-character identical URL strings, whatever default dates the two
copies would otherwise use. -/
theorem C8_url_builders_agree (todayW todayM : String) (lat lon : ℚ) (date : String) :
    PredictionWorker.build_satellite_url todayW lat lon (some date) =
      MiddlewareApi.build_satellite_url todayM lat lon (some date) := rfl
